import Mathlib

/-!
# roaport-go-auth-api: the three gateway handlers of `main.go`

A shallow embedding of `registerHandler`, `loginHandler`, `refreshHandler` and
their helpers (`respondJSON`, `getAdminToken`, `getUserToken`,
`getUserIDByEmail`).

Conventions of the embedding.

* The identity provider and the network are outside the program.  They are an
  arbitrary function `IdP` from the requests sent so far and the current
  request to the outcome of the HTTP round trip.
* `http.ResponseWriter` is the list of envelopes written so far; `respondJSON`
  appends one.
* A run of a handler records the requests sent to the IdP, the envelopes
  written, and whether the handler goroutine ended in a run-time panic.
* Go strings are `String`.  A JSON number is kept as its literal text, since
  no handler inspects a number.  Where a number literal is outside the range
  of `float64` and the decoder's target is an `interface{}`, the decoder
  stores nil: such a member is `null` in the value of a reply body.
* `http.NewRequest` is taken to succeed, as the code does by discarding its
  error: the methods are constants, and the URL extends the configured base
  that the token request before it was already sent to.
* A message body is its bytes together with the JSON value that
  `encoding/json` reads from those bytes (`none` when the bytes are not JSON).
  The typed decoding that `json.Unmarshal` and `Decoder.Decode` perform on
  that value (into a struct, a map, a slice of maps) is embedded below.
* Wire encodings (`fmt.Sprintf` of the URL, `url.Values.Encode`,
  `json.Marshal` of the payload) are kept structured: a request records the
  endpoint, the form fields and the payload value.
-/

namespace Roaport

/-! ## JSON values and Go maps -/

/-- JSON value, also the Go value `interface{}` that `encoding/json` produces
for it (`null` is the nil interface). -/
inductive JVal where
  | null
  | bool (b : Bool)
  | num (literal : String)
  | str (s : String)
  | arr (items : List JVal)
  | obj (members : List (String × JVal))

/-- Go `map[string]interface{}`, as the members in document order.  The nil
map is the empty list: the handlers only index their maps. -/
abbrev GoMap := List (String × JVal)

/-- Binding of `key`, the last one when a member name is repeated (a later
member overwrites an earlier one while decoding). -/
def GoMap.find? : GoMap → String → Option JVal
  | [], _ => none
  | (k, v) :: rest, key =>
    match GoMap.find? rest key with
    | some x => some x
    | none => if k = key then some v else none

/-- Go map indexing `m[key]`: the nil interface when the key is absent. -/
def GoMap.index (m : GoMap) (key : String) : JVal :=
  (GoMap.find? m key).getD JVal.null

/-- Go comparison `v == nil` on an `interface{}`. -/
def JVal.isNil : JVal → Bool
  | JVal.null => true
  | _ => false

/-- Go type assertion `v.(string)` in its two-result form: `none` is `ok == false`. -/
def JVal.asString? : JVal → Option String
  | JVal.str s => some s
  | _ => none

/-! ## Bodies and typed decoding -/

/-- Message body: the bytes read by `io.ReadAll` (or held by `r.Body`) and the
JSON value `encoding/json` reads from them, `none` when they are not JSON.
For a request body read through `json.NewDecoder(r.Body).Decode` the value is
the first JSON value of the stream. -/
structure Body where
  raw : String
  json : Option JVal

/-- Decoding with `json.Unmarshal(body, &tokenData)` where
`tokenData map[string]interface{}` starts nil and the error is discarded: a
JSON object fills the map; `null`, any other JSON value (a type error) and
bytes that are not JSON leave the map nil. -/
def unmarshalMap (body : Body) : GoMap :=
  match body.json with
  | some (JVal.obj members) => members
  | _ => []

/-- Element of a `[]map[string]interface{}` after decoding one array item: an
object fills the map; `null` stores the nil map; any other item is a type
error that `encoding/json` records while leaving the element at its zero value,
the nil map, and decoding goes on. -/
def unmarshalUserElem : JVal → GoMap
  | JVal.obj members => members
  | _ => []

/-- Decoding with `json.Unmarshal(body, &users)` where
`users []map[string]interface{}` starts nil and the error is discarded: a JSON
array yields one element per item; `null`, a non-array value and bytes that are
not JSON leave the slice nil. -/
def unmarshalUsers (body : Body) : List GoMap :=
  match body.json with
  | some (JVal.arr items) => items.map unmarshalUserElem
  | _ => []

/-- Simple case folding on the runes that fold to an ASCII letter: the ASCII
letters themselves, U+017F (long s) and U+212A (Kelvin sign). -/
def foldRune (c : Char) : Char :=
  if 'a' ≤ c ∧ c ≤ 'z' then Char.ofNat (c.toNat - 32)
  else if c = Char.ofNat 0x17F then 'S'
  else if c = Char.ofNat 0x212A then 'K'
  else c

/-- Matching of a JSON member name against a struct field name by
`encoding/json`: exact, or equal under case folding. -/
def equalFold (a b : String) : Bool :=
  a.toList.map foldRune == b.toList.map foldRune

/-- Decoding of the members of a JSON object into one `string` field named
`name`, starting from `cur`: a matching member with a string value sets the
field, with `null` leaves it, with any other value is a type error (`none`;
the decoder then returns a non-nil error). Members with other names are
skipped. -/
def decodeStringField (name : String) : List (String × JVal) → String → Option String
  | [], cur => some cur
  | (k, v) :: rest, cur =>
    if equalFold k name then
      match v with
      | JVal.str s => decodeStringField name rest s
      | JVal.null => decodeStringField name rest cur
      | _ => none
    else decodeStringField name rest cur

/-- Request struct of `registerHandler`. -/
structure RegisterReq where
  FirstName : String
  LastName : String
  Email : String
  PhoneNumber : String
  Password : String

/-- Request struct of `loginHandler`. -/
structure LoginReq where
  Email : String
  Password : String

/-- Request struct of `refreshHandler`. -/
structure RefreshReq where
  RefreshToken : String

/-- Decoding `json.NewDecoder(r.Body).Decode(&req)` in `registerHandler`;
`none` is `err != nil`. -/
def decodeRegisterReq (body : Body) : Option RegisterReq :=
  match body.json with
  | none => none
  | some JVal.null => some ⟨"", "", "", "", ""⟩
  | some (JVal.obj ms) =>
    match decodeStringField "firstName" ms "", decodeStringField "lastName" ms "",
      decodeStringField "email" ms "", decodeStringField "phoneNumber" ms "",
      decodeStringField "password" ms "" with
    | some f, some l, some e, some p, some pw => some ⟨f, l, e, p, pw⟩
    | _, _, _, _, _ => none
  | some _ => none

/-- Decoding `json.NewDecoder(r.Body).Decode(&req)` in `loginHandler`;
`none` is `err != nil`. -/
def decodeLoginReq (body : Body) : Option LoginReq :=
  match body.json with
  | none => none
  | some JVal.null => some ⟨"", ""⟩
  | some (JVal.obj ms) =>
    match decodeStringField "email" ms "", decodeStringField "password" ms "" with
    | some e, some pw => some ⟨e, pw⟩
    | _, _ => none
  | some _ => none

/-- Decoding `json.NewDecoder(r.Body).Decode(&req)` in `refreshHandler`;
`none` is `err != nil`. -/
def decodeRefreshReq (body : Body) : Option RefreshReq :=
  match body.json with
  | none => none
  | some JVal.null => some ⟨""⟩
  | some (JVal.obj ms) =>
    match decodeStringField "refreshToken" ms "" with
    | some t => some ⟨t⟩
    | none => none
  | some _ => none

/-! ## Configuration, outgoing requests, the IdP -/

/-- Process configuration `AppConfig`. -/
structure AppConfig where
  KeycloakURL : String
  Realm : String
  AdminUser : String
  AdminPass : String
  AdminClientID : String
  MobileClientID : String

/-- The three URLs the program formats:
`%s/realms/%s/protocol/openid-connect/token`, `%s/admin/realms/%s/users` and
`%s/admin/realms/%s/users?email=%s`. -/
inductive Url where
  | token (keycloakURL realm : String)
  | users (keycloakURL realm : String)
  | usersByEmail (keycloakURL realm email : String)

/-- What a request to the IdP carries as body. -/
inductive Payload where
  | empty
  | form (fields : List (String × String))
  | json (value : JVal)

/-- Request sent to the IdP. -/
structure OutReq where
  method : String
  url : Url
  headers : List (String × String)
  payload : Payload

/-- Response of the IdP as the program sees it. -/
structure HttpResponse where
  statusCode : Int
  body : Body

/-- Outcome of `http.Post` or `client.Do`: `failed` is `err != nil`. -/
inductive HttpResult where
  | failed
  | response (resp : HttpResponse)

/-- Behaviour of the IdP and the network: the outcome of a request, given the
requests this handler run has sent before it. -/
abbrev IdP := List OutReq → OutReq → HttpResult

/-- One HTTP round trip: the outcome, and the request appended to the log. -/
def send (idp : IdP) (calls : List OutReq) (q : OutReq) : HttpResult × List OutReq :=
  (idp calls q, calls ++ [q])

/-! ## Responses -/

/-- What `respondJSON` writes: the HTTP status code and the envelope. -/
structure Response where
  code : Int
  status : Bool
  message : String
  data : JVal

/-- State of an `http.ResponseWriter`: the responses written to it. -/
abbrev ResponseWriter := List Response

/-- Embedding of `respondJSON`. -/
def respondJSON (w : ResponseWriter) (statusCode : Int) (status : Bool) (message : String)
    (data : JVal) : ResponseWriter :=
  w ++ [⟨statusCode, status, message, data⟩]

/-- Run of a handler: the requests sent to the IdP in order, the responses
written, and whether the run ended in a run-time panic. -/
structure Run where
  calls : List OutReq
  written : ResponseWriter
  panicked : Bool

/-! ## Helpers of the handlers -/

/-- Form-encoded POST to the token endpoint (`http.Post`). -/
def tokenPost (config : AppConfig) (fields : List (String × String)) : OutReq :=
  { method := "POST"
    url := Url.token config.KeycloakURL config.Realm
    headers := [("Content-Type", "application/x-www-form-urlencoded")]
    payload := Payload.form fields }

/-- Request that `getAdminToken` sends. -/
def adminTokenReq (config : AppConfig) : OutReq :=
  tokenPost config [("client_id", config.AdminClientID), ("grant_type", "password"),
    ("username", config.AdminUser), ("password", config.AdminPass)]

/-- Request that `getUserToken` sends. -/
def userTokenReq (config : AppConfig) (email password : String) : OutReq :=
  tokenPost config [("client_id", config.MobileClientID), ("grant_type", "password"),
    ("username", email), ("password", password)]

/-- Request that `refreshHandler` sends. -/
def refreshReq (config : AppConfig) (refreshToken : String) : OutReq :=
  tokenPost config [("client_id", config.MobileClientID), ("grant_type", "refresh_token"),
    ("refresh_token", refreshToken)]

/-- User payload `userPayload` of `registerHandler`. -/
def userPayload (req : RegisterReq) : JVal :=
  JVal.obj [("enabled", JVal.bool true), ("username", JVal.str req.Email),
    ("email", JVal.str req.Email), ("firstName", JVal.str req.FirstName),
    ("lastName", JVal.str req.LastName),
    ("attributes", JVal.obj [("phone_number", JVal.str req.PhoneNumber)]),
    ("credentials", JVal.arr [JVal.obj [("type", JVal.str "password"),
      ("value", JVal.str req.Password), ("temporary", JVal.bool false)]])]

/-- Request `createReq` of `registerHandler`. -/
def createUserReq (config : AppConfig) (adminToken : String) (req : RegisterReq) : OutReq :=
  { method := "POST"
    url := Url.users config.KeycloakURL config.Realm
    headers := [("Authorization", "Bearer " ++ adminToken), ("Content-Type", "application/json")]
    payload := Payload.json (userPayload req) }

/-- Admin lookup of users by email, sent by `loginHandler` and `getUserIDByEmail`. -/
def usersByEmailReq (config : AppConfig) (adminToken email : String) : OutReq :=
  { method := "GET"
    url := Url.usersByEmail config.KeycloakURL config.Realm email
    headers := [("Authorization", "Bearer " ++ adminToken)]
    payload := Payload.empty }

/-- Embedding of `getAdminToken`: `none` is the error result. -/
def getAdminToken (config : AppConfig) (idp : IdP) (calls : List OutReq) :
    Option String × List OutReq :=
  match send idp calls (adminTokenReq config) with
  | (HttpResult.failed, calls) => (none, calls)
  | (HttpResult.response resp, calls) =>
    match ((unmarshalMap resp.body).index "access_token").asString? with
    | none => (none, calls)
    | some accessToken => (some accessToken, calls)

/-- Embedding of `getUserToken`: `none` is the error result. -/
def getUserToken (config : AppConfig) (idp : IdP) (calls : List OutReq)
    (email password : String) : Option GoMap × List OutReq :=
  match send idp calls (userTokenReq config email password) with
  | (HttpResult.failed, calls) => (none, calls)
  | (HttpResult.response resp, calls) => (some (unmarshalMap resp.body), calls)

/-- Embedding of `getUserIDByEmail`: `none` is the run-time panic of the
single-result type assertion `users[0]["id"].(string)`. -/
def getUserIDByEmail (config : AppConfig) (idp : IdP) (calls : List OutReq)
    (email : String) : Option String × List OutReq :=
  match getAdminToken config idp calls with
  | (none, calls) => (some "", calls)
  | (some adminToken, calls) =>
    match send idp calls (usersByEmailReq config adminToken email) with
    | (HttpResult.failed, calls) => (some "", calls)
    | (HttpResult.response resp, calls) =>
      match unmarshalUsers resp.body with
      | user :: _ => ((user.index "id").asString?, calls)
      | [] => (some "", calls)

/-! ## The handlers -/

/-- Incoming request: the method and the body. -/
structure Request where
  method : String
  body : Body

/-- Embedding of `registerHandler`. -/
def registerHandler (config : AppConfig) (idp : IdP) (w : ResponseWriter) (r : Request) : Run :=
  if r.method ≠ "POST" then
    ⟨[], respondJSON w 405 false "Method not allowed" JVal.null, false⟩
  else
    match decodeRegisterReq r.body with
    | none => ⟨[], respondJSON w 400 false "Invalid request body" JVal.null, false⟩
    | some req =>
      match getAdminToken config idp [] with
      | (none, calls) =>
        ⟨calls, respondJSON w 500 false "Failed to obtain admin token" JVal.null, false⟩
      | (some adminToken, calls) =>
        match send idp calls (createUserReq config adminToken req) with
        | (HttpResult.failed, calls) =>
          ⟨calls, respondJSON w 500 false "Failed to create user" JVal.null, false⟩
        | (HttpResult.response resp, calls) =>
          if resp.statusCode < 200 ∨ resp.statusCode ≥ 300 then
            ⟨calls, respondJSON w 400 false "User creation failed" (JVal.str resp.body.raw), false⟩
          else
            match getUserToken config idp calls req.Email req.Password with
            | (none, calls) =>
              ⟨calls, respondJSON w 500 false "User login after registration failed" JVal.null,
                false⟩
            | (some tokenData, calls) =>
              match getUserIDByEmail config idp calls req.Email with
              | (none, calls) => ⟨calls, w, true⟩
              | (some userID, calls) =>
                ⟨calls, respondJSON w 201 true "User registered successfully"
                  (JVal.obj [
                    ("user", JVal.obj [("id", JVal.str userID), ("username", JVal.str req.Email),
                      ("email", JVal.str req.Email), ("firstName", JVal.str req.FirstName),
                      ("lastName", JVal.str req.LastName)]),
                    ("access_token", tokenData.index "access_token"),
                    ("refresh_token", tokenData.index "refresh_token")]), false⟩

/-- Embedding of `loginHandler`. -/
def loginHandler (config : AppConfig) (idp : IdP) (w : ResponseWriter) (r : Request) : Run :=
  if r.method ≠ "POST" then
    ⟨[], respondJSON w 405 false "Method not allowed." JVal.null, false⟩
  else
    match decodeLoginReq r.body with
    | none => ⟨[], respondJSON w 400 false "Invalid request body." JVal.null, false⟩
    | some req =>
      match getUserToken config idp [] req.Email req.Password with
      | (none, calls) => ⟨calls, respondJSON w 401 false "Invalid credentials." JVal.null, false⟩
      | (some tokenData, calls) =>
        if (tokenData.index "access_token").isNil then
          ⟨calls, respondJSON w 401 false "Invalid credentials." JVal.null, false⟩
        else
          match getAdminToken config idp calls with
          | (none, calls) =>
            ⟨calls, respondJSON w 500 false "Failed to get admin token" JVal.null, false⟩
          | (some adminToken, calls) =>
            match send idp calls (usersByEmailReq config adminToken req.Email) with
            | (HttpResult.failed, calls) =>
              ⟨calls, respondJSON w 500 false "Failed to fetch user data" JVal.null, false⟩
            | (HttpResult.response resp, calls) =>
              match unmarshalUsers resp.body with
              | [] => ⟨calls, respondJSON w 404 false "User not found" JVal.null, false⟩
              | user :: _ =>
                ⟨calls, respondJSON w 200 true "Login successful."
                  (JVal.obj [
                    ("user", JVal.obj [("id", user.index "id"),
                      ("username", user.index "username"), ("email", user.index "email"),
                      ("firstName", user.index "firstName"),
                      ("lastName", user.index "lastName")]),
                    ("access_token", tokenData.index "access_token"),
                    ("refresh_token", tokenData.index "refresh_token")]), false⟩

/-- Embedding of `refreshHandler`. -/
def refreshHandler (config : AppConfig) (idp : IdP) (w : ResponseWriter) (r : Request) : Run :=
  if r.method ≠ "POST" then
    ⟨[], respondJSON w 405 false "Method not allowed" JVal.null, false⟩
  else
    match decodeRefreshReq r.body with
    | none => ⟨[], respondJSON w 400 false "Invalid refresh token" JVal.null, false⟩
    | some req =>
      if req.RefreshToken = "" then
        ⟨[], respondJSON w 400 false "Invalid refresh token" JVal.null, false⟩
      else
        match send idp [] (refreshReq config req.RefreshToken) with
        | (HttpResult.failed, calls) =>
          ⟨calls, respondJSON w 500 false "Refresh request failed" JVal.null, false⟩
        | (HttpResult.response resp, calls) =>
          if ((unmarshalMap resp.body).index "access_token").isNil then
            ⟨calls, respondJSON w 401 false "Invalid refresh token" JVal.null, false⟩
          else
            ⟨calls, respondJSON w 200 true "Token refreshed"
              (JVal.obj [
                ("access_token", (unmarshalMap resp.body).index "access_token"),
                ("refresh_token", (unmarshalMap resp.body).index "refresh_token")]), false⟩

/-! ## Concrete inputs used by the examples -/

/-- An IdP that answers the n-th request of a run with the n-th scripted
outcome, and fails in transport once the script is used up. -/
def scriptedIdP (replies : List HttpResult) : IdP :=
  fun calls _ => replies.getD calls.length HttpResult.failed

/-- A configuration. -/
def sampleConfig : AppConfig :=
  ⟨"http://keycloak:8080", "roaport", "admin", "secret", "admin-cli", "roaport-mobile"⟩

/-- Body whose bytes are not JSON. -/
def malformedBody : Body := ⟨"\x7b\"email\":", none⟩

/-- A reply `200` carrying a JSON object with the given members. -/
def okObject (raw : String) (members : List (String × JVal)) : HttpResult :=
  HttpResult.response ⟨200, ⟨raw, some (JVal.obj members)⟩⟩

/-- Reply of the token endpoint granting the admin token `"ADM"`. -/
def adminGrant : HttpResult :=
  okObject "\x7b\"access_token\":\"ADM\"\x7d" [("access_token", JVal.str "ADM")]

/-- Reply of the token endpoint granting the pair `"ACC"`, `"REF"`. -/
def pairGrant : HttpResult :=
  okObject "\x7b\"access_token\":\"ACC\",\"refresh_token\":\"REF\"\x7d"
    [("access_token", JVal.str "ACC"), ("refresh_token", JVal.str "REF")]

/-- A register request for `ada@example.org`. -/
def sampleRegister : Request :=
  ⟨"POST", ⟨"\x7b\"firstName\":\"Ada\",\"lastName\":\"L\",\"email\":\"ada@example.org\",\"phoneNumber\":\"555\",\"password\":\"pw\"\x7d",
    some (JVal.obj [("firstName", JVal.str "Ada"), ("lastName", JVal.str "L"),
      ("email", JVal.str "ada@example.org"), ("phoneNumber", JVal.str "555"),
      ("password", JVal.str "pw")])⟩⟩

/-- The struct `sampleRegister` decodes to. -/
def sampleRegisterReq : RegisterReq := ⟨"Ada", "L", "ada@example.org", "555", "pw"⟩

/-- A login request for `ada@example.org`. -/
def sampleLogin : Request :=
  ⟨"POST", ⟨"\x7b\"email\":\"ada@example.org\",\"password\":\"pw\"\x7d",
    some (JVal.obj [("email", JVal.str "ada@example.org"), ("password", JVal.str "pw")])⟩⟩

/-- A refresh request carrying the token `"REF"`. -/
def sampleRefresh : Request :=
  ⟨"POST", ⟨"\x7b\"refreshToken\":\"REF\"\x7d",
    some (JVal.obj [("refreshToken", JVal.str "REF")])⟩⟩

/-- Reply `409` of the user-creation endpoint for a duplicate email. -/
def conflictReply : HttpResult :=
  HttpResult.response ⟨409, ⟨"\x7b\"errorMessage\":\"User exists with same email\"\x7d",
    some (JVal.obj [("errorMessage", JVal.str "User exists with same email")])⟩⟩

/-- Reply `201` of the user-creation endpoint, with an empty body. -/
def createdReply : HttpResult := HttpResult.response ⟨201, ⟨"", none⟩⟩

/-- Reply of the admin lookup whose body is the JSON array `[5]`. -/
def numberItemReply : HttpResult :=
  HttpResult.response ⟨200, ⟨"[5]", some (JVal.arr [JVal.num "5"])⟩⟩

/-- Reply of the admin lookup whose body is the empty JSON array. -/
def noUserReply : HttpResult := HttpResult.response ⟨200, ⟨"[]", some (JVal.arr [])⟩⟩

/-- Reply of the token endpoint granting an access token and no refresh token. -/
def accessOnlyGrant : HttpResult :=
  okObject "\x7b\"access_token\":\"ACC\"\x7d" [("access_token", JVal.str "ACC")]

/-- Reply `401` of the token endpoint refusing the grant. -/
def refusedGrant : HttpResult :=
  HttpResult.response ⟨401, ⟨"\x7b\"error\":\"invalid_grant\"\x7d",
    some (JVal.obj [("error", JVal.str "invalid_grant")])⟩⟩

/-- Reply of the admin lookup with one user record whose id is `"u-1"`. -/
def oneUserReply : HttpResult :=
  HttpResult.response ⟨200, ⟨"[\x7b\"id\":\"u-1\",\"email\":\"ada@example.org\"\x7d]",
    some (JVal.arr [JVal.obj [("id", JVal.str "u-1"), ("email", JVal.str "ada@example.org")]])⟩⟩

/-- Data of a 201 response of `registerHandler`. -/
def registerData (req : RegisterReq) (userID : String) (accessToken refreshToken : JVal) : JVal :=
  JVal.obj [
    ("user", JVal.obj [("id", JVal.str userID), ("username", JVal.str req.Email),
      ("email", JVal.str req.Email), ("firstName", JVal.str req.FirstName),
      ("lastName", JVal.str req.LastName)]),
    ("access_token", accessToken), ("refresh_token", refreshToken)]

/-- Reply of the token endpoint whose access_token is the empty string, with
no refresh_token. -/
def emptyAccessGrant : HttpResult :=
  okObject "\x7b\"access_token\":\"\"\x7d" [("access_token", JVal.str "")]

/-- Reply of the admin lookup with one user record whose email is
`grace@example.org`. -/
def otherUserReply : HttpResult :=
  HttpResult.response ⟨200, ⟨"[\x7b\"id\":\"u-2\",\"email\":\"grace@example.org\"\x7d]",
    some (JVal.arr [JVal.obj [("id", JVal.str "u-2"), ("email", JVal.str "grace@example.org")]])⟩⟩

/-- Data of a 200 response of `loginHandler`. -/
def loginData (user tokenData : GoMap) : JVal :=
  JVal.obj [
    ("user", JVal.obj [("id", user.index "id"), ("username", user.index "username"),
      ("email", user.index "email"), ("firstName", user.index "firstName"),
      ("lastName", user.index "lastName")]),
    ("access_token", tokenData.index "access_token"),
    ("refresh_token", tokenData.index "refresh_token")]

/-- Reply of the admin lookup with one user record that has no id. -/
def noIdUserReply : HttpResult :=
  HttpResult.response ⟨200, ⟨"[\x7b\"email\":\"ada@example.org\"\x7d]",
    some (JVal.arr [JVal.obj [("email", JVal.str "ada@example.org")]])⟩⟩

/-- Whether a JSON value is an object. -/
def JVal.isObject : JVal → Bool
  | JVal.obj _ => true
  | _ => false

/-- The wording of claim C4, "the body parses as an array of objects": the
bytes are JSON, the value is an array, and every item is an object. -/
def parsesAsArrayOfObjects (body : Body) : Bool :=
  match body.json with
  | some (JVal.arr items) => items.all JVal.isObject
  | _ => false

/-! ## Lemmas on the helpers -/

theorem JVal.isNil_iff (v : JVal) : v.isNil = true ↔ v = JVal.null := by
  cases v <;> simp [JVal.isNil]

theorem unmarshalUsers_eq_nil (body : Body)
    (hz : ∀ item items, body.json ≠ some (JVal.arr (item :: items))) :
    unmarshalUsers body = [] := by
  unfold unmarshalUsers
  split
  · next items h =>
    cases items with
    | nil => rfl
    | cons item items => exact absurd h (hz item items)
  · rfl

theorem getAdminToken_calls (config : AppConfig) (idp : IdP) (calls : List OutReq) :
    (getAdminToken config idp calls).2 = calls ++ [adminTokenReq config] := by
  unfold getAdminToken send
  cases idp calls (adminTokenReq config) with
  | failed => rfl
  | response resp =>
    cases h : ((unmarshalMap resp.body).index "access_token").asString? <;> simp [h]

theorem getUserToken_calls (config : AppConfig) (idp : IdP) (calls : List OutReq)
    (email password : String) :
    (getUserToken config idp calls email password).2
      = calls ++ [userTokenReq config email password] := by
  unfold getUserToken send
  cases idp calls (userTokenReq config email password) <;> rfl

/-! ## The claims -/

/-- C1: for a request whose method is not POST, whatever the body and the IdP,
each of the three handlers writes the single response 405 with status false
and data null, and sends nothing to the IdP. -/
theorem non_post_method_not_allowed (config : AppConfig) (idp : IdP) (r : Request)
    (h : r.method ≠ "POST") :
    registerHandler config idp [] r
        = ⟨[], [⟨405, false, "Method not allowed", JVal.null⟩], false⟩ ∧
      loginHandler config idp [] r
        = ⟨[], [⟨405, false, "Method not allowed.", JVal.null⟩], false⟩ ∧
      refreshHandler config idp [] r
        = ⟨[], [⟨405, false, "Method not allowed", JVal.null⟩], false⟩ := by
  simp [registerHandler, loginHandler, refreshHandler, respondJSON, h]

/-- Instance of `non_post_method_not_allowed` at a concrete request and scripted IdP. -/
theorem non_post_method_not_allowed_witness :
    (⟨"GET", malformedBody⟩ : Request).method ≠ "POST" ∧
      (registerHandler sampleConfig (scriptedIdP [adminGrant]) [] ⟨"GET", malformedBody⟩
          = ⟨[], [⟨405, false, "Method not allowed", JVal.null⟩], false⟩ ∧
        loginHandler sampleConfig (scriptedIdP [adminGrant]) [] ⟨"GET", malformedBody⟩
          = ⟨[], [⟨405, false, "Method not allowed.", JVal.null⟩], false⟩ ∧
        refreshHandler sampleConfig (scriptedIdP [adminGrant]) [] ⟨"GET", malformedBody⟩
          = ⟨[], [⟨405, false, "Method not allowed", JVal.null⟩], false⟩) :=
  ⟨by decide, non_post_method_not_allowed sampleConfig (scriptedIdP [adminGrant])
    ⟨"GET", malformedBody⟩ (by decide)⟩

/-- C2: for a POST request whose body fails to decode into the handler's
request struct, each of the three handlers writes the single response 400 with
status false (and data null), and sends nothing to the IdP; a body whose bytes
are not JSON fails to decode in all three. -/
theorem undecodable_body_bad_request (config : AppConfig) (idp : IdP) (r : Request)
    (hm : r.method = "POST") :
    (decodeRegisterReq r.body = none →
        registerHandler config idp [] r
          = ⟨[], [⟨400, false, "Invalid request body", JVal.null⟩], false⟩) ∧
      (decodeLoginReq r.body = none →
        loginHandler config idp [] r
          = ⟨[], [⟨400, false, "Invalid request body.", JVal.null⟩], false⟩) ∧
      (decodeRefreshReq r.body = none →
        refreshHandler config idp [] r
          = ⟨[], [⟨400, false, "Invalid refresh token", JVal.null⟩], false⟩) ∧
      (r.body.json = none →
        decodeRegisterReq r.body = none ∧ decodeLoginReq r.body = none ∧
          decodeRefreshReq r.body = none) := by
  refine ⟨?_, ?_, ?_, ?_⟩ <;> intro hd
  · simp [registerHandler, respondJSON, hm, hd]
  · simp [loginHandler, respondJSON, hm, hd]
  · simp [refreshHandler, respondJSON, hm, hd]
  · simp [decodeRegisterReq, decodeLoginReq, decodeRefreshReq, hd]

/-- Instance of `undecodable_body_bad_request` at a concrete request and scripted IdP. -/
theorem undecodable_body_bad_request_witness :
    (⟨"POST", malformedBody⟩ : Request).method = "POST" ∧
      registerHandler sampleConfig (scriptedIdP [adminGrant]) [] ⟨"POST", malformedBody⟩
        = ⟨[], [⟨400, false, "Invalid request body", JVal.null⟩], false⟩ ∧
      loginHandler sampleConfig (scriptedIdP [adminGrant]) [] ⟨"POST", malformedBody⟩
        = ⟨[], [⟨400, false, "Invalid request body.", JVal.null⟩], false⟩ ∧
      refreshHandler sampleConfig (scriptedIdP [adminGrant]) [] ⟨"POST", malformedBody⟩
        = ⟨[], [⟨400, false, "Invalid refresh token", JVal.null⟩], false⟩ :=
  have h := undecodable_body_bad_request sampleConfig (scriptedIdP [adminGrant])
    ⟨"POST", malformedBody⟩ rfl
  ⟨rfl, h.1 rfl, h.2.1 rfl, h.2.2.1 rfl⟩

/-- C3: for a POST register request with a decodable body, an admin token
obtained, and a user-creation reply whose status code is outside 200..299,
`registerHandler` writes the single response 400 with status false and data the
bytes of the IdP's reply body as a string; the requests sent are the admin
token request and the creation request, nothing after them. -/
theorem register_creation_rejected (config : AppConfig) (idp : IdP) (r : Request)
    (req : RegisterReq) (adminToken : String) (calls : List OutReq) (resp : HttpResponse)
    (hm : r.method = "POST") (hd : decodeRegisterReq r.body = some req)
    (ha : getAdminToken config idp [] = (some adminToken, calls))
    (hc : idp calls (createUserReq config adminToken req) = HttpResult.response resp)
    (hs : resp.statusCode < 200 ∨ 299 < resp.statusCode) :
    registerHandler config idp [] r
      = ⟨[adminTokenReq config, createUserReq config adminToken req],
          [⟨400, false, "User creation failed", JVal.str resp.body.raw⟩], false⟩ := by
  have hcalls : calls = [adminTokenReq config] := by
    have := getAdminToken_calls config idp []
    rw [ha] at this
    simpa using this
  have hs2 : resp.statusCode < 200 ∨ resp.statusCode ≥ 300 := by omega
  subst hcalls
  simp [registerHandler, respondJSON, hm, hd, ha, send, hc, hs2]

/-- Instance of `register_creation_rejected` at a concrete request and scripted IdP. -/
theorem register_creation_rejected_witness :
    sampleRegister.method = "POST" ∧
      registerHandler sampleConfig (scriptedIdP [adminGrant, conflictReply]) [] sampleRegister
        = ⟨[adminTokenReq sampleConfig, createUserReq sampleConfig "ADM" sampleRegisterReq],
            [⟨400, false, "User creation failed",
              JVal.str "\x7b\"errorMessage\":\"User exists with same email\"\x7d"⟩], false⟩ :=
  ⟨rfl, register_creation_rejected sampleConfig (scriptedIdP [adminGrant, conflictReply])
    sampleRegister sampleRegisterReq "ADM" [adminTokenReq sampleConfig]
    ⟨409, ⟨"\x7b\"errorMessage\":\"User exists with same email\"\x7d",
      some (JVal.obj [("errorMessage", JVal.str "User exists with same email")])⟩⟩
    rfl rfl rfl rfl (by decide)⟩

/-- C4, the claim as written fails: with a token granted and the admin token
obtained, a lookup body `[5]` does not parse as an array of objects, yet it
decodes to one (empty) user record and `loginHandler` answers 200. -/
theorem login_number_item_answers_200 :
    sampleLogin.method = "POST" ∧
      decodeLoginReq sampleLogin.body = some ⟨"ada@example.org", "pw"⟩ ∧
      parsesAsArrayOfObjects ⟨"[5]", some (JVal.arr [JVal.num "5"])⟩ = false ∧
      loginHandler sampleConfig (scriptedIdP [pairGrant, adminGrant, numberItemReply]) []
          sampleLogin
        = ⟨[userTokenReq sampleConfig "ada@example.org" "pw", adminTokenReq sampleConfig,
            usersByEmailReq sampleConfig "ADM" "ada@example.org"],
           [⟨200, true, "Login successful.",
              JVal.obj [
                ("user", JVal.obj [("id", JVal.null), ("username", JVal.null),
                  ("email", JVal.null), ("firstName", JVal.null), ("lastName", JVal.null)]),
                ("access_token", JVal.str "ACC"), ("refresh_token", JVal.str "REF")]⟩],
           false⟩ :=
  ⟨rfl, rfl, rfl, rfl⟩

/-- C4, amended: for a POST login request with a decodable body, a password
grant reply carrying a non-null access_token and an admin token obtained, if
the body of the lookup reply is anything but a non-empty JSON array (the empty
array, a JSON value that is not an array, or bytes that are not JSON), the
lookup yields zero users and `loginHandler` writes the single response 404
with status false. -/
theorem login_zero_users_not_found (config : AppConfig) (idp : IdP) (r : Request)
    (req : LoginReq) (tresp : HttpResponse) (adminToken : String) (calls : List OutReq)
    (resp : HttpResponse)
    (hm : r.method = "POST") (hd : decodeLoginReq r.body = some req)
    (ht : idp [] (userTokenReq config req.Email req.Password) = HttpResult.response tresp)
    (hacc : (unmarshalMap tresp.body).index "access_token" ≠ JVal.null)
    (ha : getAdminToken config idp [userTokenReq config req.Email req.Password]
      = (some adminToken, calls))
    (hl : idp calls (usersByEmailReq config adminToken req.Email) = HttpResult.response resp)
    (hz : ∀ item items, resp.body.json ≠ some (JVal.arr (item :: items))) :
    unmarshalUsers resp.body = [] ∧
      loginHandler config idp [] r
        = ⟨[userTokenReq config req.Email req.Password, adminTokenReq config,
            usersByEmailReq config adminToken req.Email],
           [⟨404, false, "User not found", JVal.null⟩], false⟩ := by
  have hu := unmarshalUsers_eq_nil resp.body hz
  have hcalls : calls = [userTokenReq config req.Email req.Password, adminTokenReq config] := by
    have := getAdminToken_calls config idp [userTokenReq config req.Email req.Password]
    rw [ha] at this
    simpa using this
  have hnil : ((unmarshalMap tresp.body).index "access_token").isNil = false := by
    cases h : ((unmarshalMap tresp.body).index "access_token").isNil
    · rfl
    · exact absurd ((JVal.isNil_iff _).1 h) hacc
  subst hcalls
  refine ⟨hu, ?_⟩
  simp [loginHandler, respondJSON, hm, hd, getUserToken, send, ht, hnil, ha, hl, hu]

/-- Instance of `login_zero_users_not_found` at a concrete request and scripted IdP. -/
theorem login_zero_users_not_found_witness :
    sampleLogin.method = "POST" ∧
      unmarshalUsers ⟨"[]", some (JVal.arr [])⟩ = [] ∧
      loginHandler sampleConfig (scriptedIdP [pairGrant, adminGrant, noUserReply]) [] sampleLogin
        = ⟨[userTokenReq sampleConfig "ada@example.org" "pw", adminTokenReq sampleConfig,
            usersByEmailReq sampleConfig "ADM" "ada@example.org"],
           [⟨404, false, "User not found", JVal.null⟩], false⟩ :=
  ⟨rfl, login_zero_users_not_found sampleConfig (scriptedIdP [pairGrant, adminGrant, noUserReply])
    sampleLogin ⟨"ada@example.org", "pw"⟩
    ⟨200, ⟨"\x7b\"access_token\":\"ACC\",\"refresh_token\":\"REF\"\x7d",
      some (JVal.obj [("access_token", JVal.str "ACC"), ("refresh_token", JVal.str "REF")])⟩⟩
    "ADM" [userTokenReq sampleConfig "ada@example.org" "pw", adminTokenReq sampleConfig]
    ⟨200, ⟨"[]", some (JVal.arr [])⟩⟩
    rfl rfl rfl (by simp [unmarshalMap, GoMap.index, GoMap.find?]) rfl rfl
    (by intro item items h; cases h)⟩

/-- C5: for a POST refresh request with a decodable body and a non-empty
refreshToken whose request reaches the IdP: when the reply carries no
access_token (the body is not a JSON object, the key is absent, or its value is
null) `refreshHandler` writes the single response 401 with status false; when
the reply carries a non-null access_token it writes the single response 200
with status true whose data holds the reply's access_token and refresh_token
unchanged; so a response 200 with status true is written exactly when the
access_token is present. -/
theorem refresh_outcome (config : AppConfig) (idp : IdP) (r : Request) (req : RefreshReq)
    (resp : HttpResponse)
    (hm : r.method = "POST") (hd : decodeRefreshReq r.body = some req)
    (hne : req.RefreshToken ≠ "")
    (hr : idp [] (refreshReq config req.RefreshToken) = HttpResult.response resp) :
    ((∀ members, resp.body.json ≠ some (JVal.obj members)) →
        refreshHandler config idp [] r
          = ⟨[refreshReq config req.RefreshToken],
              [⟨401, false, "Invalid refresh token", JVal.null⟩], false⟩) ∧
      (∀ members, resp.body.json = some (JVal.obj members) →
        GoMap.find? members "access_token" = none ∨
          GoMap.find? members "access_token" = some JVal.null →
        refreshHandler config idp [] r
          = ⟨[refreshReq config req.RefreshToken],
              [⟨401, false, "Invalid refresh token", JVal.null⟩], false⟩) ∧
      (∀ members token, resp.body.json = some (JVal.obj members) →
        GoMap.find? members "access_token" = some token → token ≠ JVal.null →
        refreshHandler config idp [] r
          = ⟨[refreshReq config req.RefreshToken],
              [⟨200, true, "Token refreshed",
                JVal.obj [("access_token", token),
                  ("refresh_token", GoMap.index members "refresh_token")]⟩], false⟩) ∧
      ((∃ e ∈ (refreshHandler config idp [] r).written, e.code = 200 ∧ e.status = true) ↔
        ∃ members token, resp.body.json = some (JVal.obj members) ∧
          GoMap.find? members "access_token" = some token ∧ token ≠ JVal.null) := by
  have hrun : refreshHandler config idp [] r
      = if ((unmarshalMap resp.body).index "access_token").isNil then
          ⟨[refreshReq config req.RefreshToken],
            [⟨401, false, "Invalid refresh token", JVal.null⟩], false⟩
        else
          ⟨[refreshReq config req.RefreshToken],
            [⟨200, true, "Token refreshed",
              JVal.obj [("access_token", (unmarshalMap resp.body).index "access_token"),
                ("refresh_token", (unmarshalMap resp.body).index "refresh_token")]⟩], false⟩ := by
    simp [refreshHandler, respondJSON, hm, hd, hne, send, hr]
  have hnotobj : (∀ members, resp.body.json ≠ some (JVal.obj members)) →
      unmarshalMap resp.body = [] := by
    intro h
    unfold unmarshalMap
    split
    · next members hj => exact absurd hj (h members)
    · rfl
  have hobj : ∀ members, resp.body.json = some (JVal.obj members) →
      unmarshalMap resp.body = members := by
    intro members h
    simp [unmarshalMap, h]
  refine ⟨?_, ?_, ?_, ?_⟩
  · intro h
    rw [hrun, hnotobj h]
    simp [GoMap.index, GoMap.find?, JVal.isNil]
  · intro members hj hfind
    rw [hrun, hobj members hj]
    rcases hfind with hf | hf <;> simp [GoMap.index, hf, JVal.isNil]
  · intro members token hj hf hnn
    have hnil : token.isNil = false := by
      cases h : token.isNil
      · rfl
      · exact absurd ((JVal.isNil_iff _).1 h) hnn
    rw [hrun, hobj members hj]
    simp [GoMap.index, hf, hnil]
  · rw [hrun]
    constructor
    · intro ⟨e, he, hcode, _⟩
      cases hnil : ((unmarshalMap resp.body).index "access_token").isNil
      · -- the access_token is not nil, so the body is an object that binds it
        cases hj : resp.body.json with
        | none =>
          have := hnotobj (by simp [hj])
          simp [this, GoMap.index, GoMap.find?, JVal.isNil] at hnil
        | some v =>
          cases v with
          | obj members =>
            rw [hobj members hj] at hnil
            cases hf : GoMap.find? members "access_token" with
            | none => simp [GoMap.index, hf, JVal.isNil] at hnil
            | some token =>
              refine ⟨members, token, rfl, hf, ?_⟩
              intro hnull
              simp [GoMap.index, hf, hnull, JVal.isNil] at hnil
          | _ =>
            have := hnotobj (by simp [hj])
            simp [this, GoMap.index, GoMap.find?, JVal.isNil] at hnil
      · simp [hnil] at he
        simp [he] at hcode
    · intro ⟨members, token, hj, hf, hnn⟩
      have hnil : token.isNil = false := by
        cases h : token.isNil
        · rfl
        · exact absurd ((JVal.isNil_iff _).1 h) hnn
      rw [hobj members hj]
      simp [GoMap.index, hf, hnil]

/-- Instance of `refresh_outcome` at a concrete request and scripted IdP. -/
theorem refresh_outcome_witness :
    sampleRefresh.method = "POST" ∧
      refreshHandler sampleConfig (scriptedIdP [pairGrant]) [] sampleRefresh
        = ⟨[refreshReq sampleConfig "REF"],
            [⟨200, true, "Token refreshed",
              JVal.obj [("access_token", JVal.str "ACC"), ("refresh_token", JVal.str "REF")]⟩],
            false⟩ :=
  ⟨rfl, (refresh_outcome sampleConfig (scriptedIdP [pairGrant]) sampleRefresh ⟨"REF"⟩
    ⟨200, ⟨"\x7b\"access_token\":\"ACC\",\"refresh_token\":\"REF\"\x7d",
      some (JVal.obj [("access_token", JVal.str "ACC"), ("refresh_token", JVal.str "REF")])⟩⟩
    rfl rfl (by decide) rfl).2.2.1
    [("access_token", JVal.str "ACC"), ("refresh_token", JVal.str "REF")] (JVal.str "ACC")
    rfl rfl (by simp)⟩

/-- C6, the claim as written fails: the user is created, the password grant
replies with an access_token and no refresh_token, and `registerHandler`
answers 201 with a null refresh_token in data. -/
theorem register_201_with_null_refresh_token :
    registerHandler sampleConfig
        (scriptedIdP [adminGrant, createdReply, accessOnlyGrant, adminGrant, oneUserReply]) []
        sampleRegister
      = ⟨[adminTokenReq sampleConfig, createUserReq sampleConfig "ADM" sampleRegisterReq,
          userTokenReq sampleConfig "ada@example.org" "pw", adminTokenReq sampleConfig,
          usersByEmailReq sampleConfig "ADM" "ada@example.org"],
         [⟨201, true, "User registered successfully",
            registerData sampleRegisterReq "u-1" (JVal.str "ACC") JVal.null⟩],
         false⟩ :=
  rfl

/-- The password grant after a successful creation is refused by the IdP (a
reply without access_token): `registerHandler` answers 201 with both tokens
null, where `loginHandler` answers 401 on the same reply. -/
theorem register_refused_grant_answers_201 :
    registerHandler sampleConfig
        (scriptedIdP [adminGrant, createdReply, refusedGrant, adminGrant, oneUserReply]) []
        sampleRegister
      = ⟨[adminTokenReq sampleConfig, createUserReq sampleConfig "ADM" sampleRegisterReq,
          userTokenReq sampleConfig "ada@example.org" "pw", adminTokenReq sampleConfig,
          usersByEmailReq sampleConfig "ADM" "ada@example.org"],
         [⟨201, true, "User registered successfully",
            registerData sampleRegisterReq "u-1" JVal.null JVal.null⟩],
         false⟩ ∧
      loginHandler sampleConfig (scriptedIdP [refusedGrant]) [] sampleLogin
        = ⟨[userTokenReq sampleConfig "ada@example.org" "pw"],
           [⟨401, false, "Invalid credentials.", JVal.null⟩], false⟩ :=
  ⟨rfl, rfl⟩

/-- C6, amended: in `registerHandler`, after a successful user creation (2xx),
if the password-grant call fails in transport the single response is 500 with
status false; and when the IdP's reply carries a non-null access_token, every
201 response carries in data that access_token and the reply's refresh_token
unchanged (null when the reply has none). -/
theorem register_login_after_creation (config : AppConfig) (idp : IdP) (r : Request)
    (req : RegisterReq) (adminToken : String) (calls : List OutReq) (cresp : HttpResponse)
    (hm : r.method = "POST") (hd : decodeRegisterReq r.body = some req)
    (ha : getAdminToken config idp [] = (some adminToken, calls))
    (hc : idp calls (createUserReq config adminToken req) = HttpResult.response cresp)
    (h2xx : 200 ≤ cresp.statusCode ∧ cresp.statusCode ≤ 299) :
    (idp [adminTokenReq config, createUserReq config adminToken req]
          (userTokenReq config req.Email req.Password) = HttpResult.failed →
        registerHandler config idp [] r
          = ⟨[adminTokenReq config, createUserReq config adminToken req,
              userTokenReq config req.Email req.Password],
             [⟨500, false, "User login after registration failed", JVal.null⟩], false⟩) ∧
      (∀ tresp, idp [adminTokenReq config, createUserReq config adminToken req]
          (userTokenReq config req.Email req.Password) = HttpResult.response tresp →
        (unmarshalMap tresp.body).index "access_token" ≠ JVal.null →
        ∀ e ∈ (registerHandler config idp [] r).written, e.code = 201 →
          ∃ userID, e.data = registerData req userID
            ((unmarshalMap tresp.body).index "access_token")
            ((unmarshalMap tresp.body).index "refresh_token")) := by
  have hcalls : calls = [adminTokenReq config] := by
    have := getAdminToken_calls config idp []
    rw [ha] at this
    simpa using this
  subst hcalls
  have hs2 : ¬ (cresp.statusCode < 200 ∨ cresp.statusCode ≥ 300) := by omega
  constructor
  · intro ht
    simp [registerHandler, respondJSON, hm, hd, ha, send, hc, hs2, getUserToken, ht]
  · intro tresp ht _ e he hcode
    rcases hid : getUserIDByEmail config idp [adminTokenReq config,
      createUserReq config adminToken req, userTokenReq config req.Email req.Password]
      req.Email with ⟨_ | userID, calls3⟩
    · simp [registerHandler, respondJSON, hm, hd, ha, send, hc, hs2, getUserToken, ht, hid]
        at he
    · simp [registerHandler, respondJSON, hm, hd, ha, send, hc, hs2, getUserToken, ht, hid]
        at he
      exact ⟨userID, by rw [he]; rfl⟩

/-- Instance of `register_login_after_creation` at a concrete request and scripted IdP. -/
theorem register_login_after_creation_witness :
    sampleRegister.method = "POST" ∧
      registerHandler sampleConfig (scriptedIdP [adminGrant, createdReply]) [] sampleRegister
        = ⟨[adminTokenReq sampleConfig, createUserReq sampleConfig "ADM" sampleRegisterReq,
            userTokenReq sampleConfig "ada@example.org" "pw"],
           [⟨500, false, "User login after registration failed", JVal.null⟩], false⟩ :=
  ⟨rfl, (register_login_after_creation sampleConfig (scriptedIdP [adminGrant, createdReply])
    sampleRegister sampleRegisterReq "ADM" [adminTokenReq sampleConfig] ⟨201, ⟨"", none⟩⟩
    rfl rfl rfl rfl (by decide)).1 rfl⟩

/-- C7, the claim as written fails: the user is created and the token pair
obtained, then the admin token request of the id lookup fails in transport, and
`registerHandler` answers 201 with status true and an empty user id. -/
theorem register_201_when_lookup_fails :
    registerHandler sampleConfig (scriptedIdP [adminGrant, createdReply, pairGrant]) []
        sampleRegister
      = ⟨[adminTokenReq sampleConfig, createUserReq sampleConfig "ADM" sampleRegisterReq,
          userTokenReq sampleConfig "ada@example.org" "pw", adminTokenReq sampleConfig],
         [⟨201, true, "User registered successfully",
            registerData sampleRegisterReq "" (JVal.str "ACC") (JVal.str "REF")⟩],
         false⟩ :=
  rfl

/-- C7, amended: in `registerHandler`, if user creation succeeded (2xx) and the
token pair was obtained but the lookup of the new user's id fails (the admin
token cannot be obtained, the lookup request fails in transport, or the lookup
yields no user), the single response is 201 with status true, the token pair,
and the empty string as data.user.id. -/
theorem register_lookup_failure_gives_empty_id (config : AppConfig) (idp : IdP) (r : Request)
    (req : RegisterReq) (adminToken : String) (calls : List OutReq) (cresp tresp : HttpResponse)
    (hm : r.method = "POST") (hd : decodeRegisterReq r.body = some req)
    (ha : getAdminToken config idp [] = (some adminToken, calls))
    (hc : idp calls (createUserReq config adminToken req) = HttpResult.response cresp)
    (h2xx : 200 ≤ cresp.statusCode ∧ cresp.statusCode ≤ 299)
    (ht : idp [adminTokenReq config, createUserReq config adminToken req]
      (userTokenReq config req.Email req.Password) = HttpResult.response tresp)
    (_hacc : (unmarshalMap tresp.body).index "access_token" ≠ JVal.null)
    (hfail :
      (∃ calls2, getAdminToken config idp [adminTokenReq config,
          createUserReq config adminToken req, userTokenReq config req.Email req.Password]
        = (none, calls2)) ∨
      (∃ adminToken2 calls2, getAdminToken config idp [adminTokenReq config,
          createUserReq config adminToken req, userTokenReq config req.Email req.Password]
        = (some adminToken2, calls2) ∧
        (idp calls2 (usersByEmailReq config adminToken2 req.Email) = HttpResult.failed ∨
          ∃ uresp, idp calls2 (usersByEmailReq config adminToken2 req.Email)
              = HttpResult.response uresp ∧ unmarshalUsers uresp.body = []))) :
    (registerHandler config idp [] r).written
        = [⟨201, true, "User registered successfully",
            registerData req "" ((unmarshalMap tresp.body).index "access_token")
              ((unmarshalMap tresp.body).index "refresh_token")⟩] ∧
      (registerHandler config idp [] r).panicked = false := by
  have hcalls : calls = [adminTokenReq config] := by
    have := getAdminToken_calls config idp []
    rw [ha] at this
    simpa using this
  subst hcalls
  have hs2 : ¬ (cresp.statusCode < 200 ∨ cresp.statusCode ≥ 300) := by omega
  have hid : (getUserIDByEmail config idp [adminTokenReq config,
      createUserReq config adminToken req, userTokenReq config req.Email req.Password]
      req.Email).1 = some "" := by
    rcases hfail with ⟨calls2, h2⟩ | ⟨adminToken2, calls2, h2, h3 | ⟨uresp, h3, h4⟩⟩
    · simp [getUserIDByEmail, h2]
    · simp [getUserIDByEmail, h2, send, h3]
    · simp [getUserIDByEmail, h2, send, h3, h4]
  rcases hid2 : getUserIDByEmail config idp [adminTokenReq config,
      createUserReq config adminToken req, userTokenReq config req.Email req.Password]
      req.Email with ⟨o, calls3⟩
  rw [hid2] at hid
  simp only at hid
  subst hid
  simp [registerHandler, respondJSON, hm, hd, ha, send, hc, hs2, getUserToken, ht, hid2,
    registerData]

/-- Instance of `register_lookup_failure_gives_empty_id` at a concrete request and scripted IdP. -/
theorem register_lookup_failure_gives_empty_id_witness :
    sampleRegister.method = "POST" ∧
      (registerHandler sampleConfig (scriptedIdP [adminGrant, createdReply, pairGrant]) []
          sampleRegister).written
        = [⟨201, true, "User registered successfully",
            registerData sampleRegisterReq "" (JVal.str "ACC") (JVal.str "REF")⟩] ∧
      (registerHandler sampleConfig (scriptedIdP [adminGrant, createdReply, pairGrant]) []
          sampleRegister).panicked = false :=
  ⟨rfl, register_lookup_failure_gives_empty_id sampleConfig
    (scriptedIdP [adminGrant, createdReply, pairGrant]) sampleRegister sampleRegisterReq "ADM"
    [adminTokenReq sampleConfig] ⟨201, ⟨"", none⟩⟩
    ⟨200, ⟨"\x7b\"access_token\":\"ACC\",\"refresh_token\":\"REF\"\x7d",
      some (JVal.obj [("access_token", JVal.str "ACC"), ("refresh_token", JVal.str "REF")])⟩⟩
    rfl rfl rfl rfl (by decide) rfl (by simp [unmarshalMap, GoMap.index, GoMap.find?])
    (Or.inl ⟨_, rfl⟩)⟩

/-- C8, the claim as written fails: `loginHandler` answers 200 with an empty
access_token, a null refresh_token and a data.user.email that differs from the
submitted email, all three taken from the IdP's replies as they are. -/
theorem login_200_passes_idp_values_through :
    decodeLoginReq sampleLogin.body = some ⟨"ada@example.org", "pw"⟩ ∧
      loginHandler sampleConfig (scriptedIdP [emptyAccessGrant, adminGrant, otherUserReply]) []
          sampleLogin
        = ⟨[userTokenReq sampleConfig "ada@example.org" "pw", adminTokenReq sampleConfig,
            usersByEmailReq sampleConfig "ADM" "ada@example.org"],
           [⟨200, true, "Login successful.",
              JVal.obj [
                ("user", JVal.obj [("id", JVal.str "u-2"), ("username", JVal.null),
                  ("email", JVal.str "grace@example.org"), ("firstName", JVal.null),
                  ("lastName", JVal.null)]),
                ("access_token", JVal.str ""), ("refresh_token", JVal.null)]⟩],
           false⟩ ∧
      JVal.str "grace@example.org" ≠ JVal.str "ada@example.org" :=
  ⟨rfl, rfl, by intro h; injection h with h; exact absurd h (by decide)⟩

/-- C8, amended: whenever `loginHandler` responds with HTTP 200, the request
body decoded, the IdP's password-grant reply carried a non-null access_token,
and data holds that access_token, the reply's refresh_token (null when the
reply has none) and the projection of the first user record that the IdP's
lookup by the submitted email returned, so data.user.email is the email field
of that record. -/
theorem login_200_data (config : AppConfig) (idp : IdP) (r : Request) (e : Response)
    (he : e ∈ (loginHandler config idp [] r).written) (hcode : e.code = 200) :
    ∃ req tresp adminToken calls uresp user rest,
      decodeLoginReq r.body = some req ∧
      idp [] (userTokenReq config req.Email req.Password) = HttpResult.response tresp ∧
      (unmarshalMap tresp.body).index "access_token" ≠ JVal.null ∧
      getAdminToken config idp [userTokenReq config req.Email req.Password]
        = (some adminToken, calls) ∧
      idp calls (usersByEmailReq config adminToken req.Email) = HttpResult.response uresp ∧
      unmarshalUsers uresp.body = user :: rest ∧
      e.data = loginData user (unmarshalMap tresp.body) := by
  by_cases hm : r.method = "POST"
  swap
  · simp [loginHandler, respondJSON, hm] at he
    simp [he] at hcode
  cases hd : decodeLoginReq r.body with
  | none =>
    simp [loginHandler, respondJSON, hm, hd] at he
    simp [he] at hcode
  | some req =>
    cases ht : idp [] (userTokenReq config req.Email req.Password) with
    | failed =>
      simp [loginHandler, respondJSON, hm, hd, getUserToken, send, ht] at he
      simp [he] at hcode
    | response tresp =>
      cases hnil : ((unmarshalMap tresp.body).index "access_token").isNil with
      | true =>
        simp [loginHandler, respondJSON, hm, hd, getUserToken, send, ht, hnil] at he
        simp [he] at hcode
      | false =>
        have hacc : (unmarshalMap tresp.body).index "access_token" ≠ JVal.null := by
          intro h
          rw [h] at hnil
          simp [JVal.isNil] at hnil
        rcases ha : getAdminToken config idp [userTokenReq config req.Email req.Password]
          with ⟨_ | adminToken, calls⟩
        · simp [loginHandler, respondJSON, hm, hd, getUserToken, send, ht, hnil, ha] at he
          simp [he] at hcode
        · cases hl : idp calls (usersByEmailReq config adminToken req.Email) with
          | failed =>
            simp [loginHandler, respondJSON, hm, hd, getUserToken, send, ht, hnil, ha, hl] at he
            simp [he] at hcode
          | response uresp =>
            cases hu : unmarshalUsers uresp.body with
            | nil =>
              simp [loginHandler, respondJSON, hm, hd, getUserToken, send, ht, hnil, ha, hl, hu]
                at he
              simp [he] at hcode
            | cons user rest =>
              simp [loginHandler, respondJSON, hm, hd, getUserToken, send, ht, hnil, ha, hl, hu]
                at he
              exact ⟨req, tresp, adminToken, calls, uresp, user, rest, rfl, ht, hacc, ha, hl,
                hu, by rw [he]; rfl⟩

/-- Instance of `login_200_data` at a concrete request and scripted IdP. -/
theorem login_200_data_witness :
    ∃ req tresp adminToken calls uresp user rest,
      decodeLoginReq sampleLogin.body = some req ∧
      scriptedIdP [pairGrant, adminGrant, oneUserReply] []
        (userTokenReq sampleConfig req.Email req.Password) = HttpResult.response tresp ∧
      (unmarshalMap tresp.body).index "access_token" ≠ JVal.null ∧
      getAdminToken sampleConfig (scriptedIdP [pairGrant, adminGrant, oneUserReply])
          [userTokenReq sampleConfig req.Email req.Password]
        = (some adminToken, calls) ∧
      scriptedIdP [pairGrant, adminGrant, oneUserReply] calls
        (usersByEmailReq sampleConfig adminToken req.Email) = HttpResult.response uresp ∧
      unmarshalUsers uresp.body = user :: rest ∧
      (⟨200, true, "Login successful.",
          loginData [("id", JVal.str "u-1"), ("email", JVal.str "ada@example.org")]
            [("access_token", JVal.str "ACC"), ("refresh_token", JVal.str "REF")]⟩ : Response).data
        = loginData user (unmarshalMap tresp.body) :=
  login_200_data sampleConfig (scriptedIdP [pairGrant, adminGrant, oneUserReply]) sampleLogin
    ⟨200, true, "Login successful.",
      loginData [("id", JVal.str "u-1"), ("email", JVal.str "ada@example.org")]
        [("access_token", JVal.str "ACC"), ("refresh_token", JVal.str "REF")]⟩
    (List.mem_singleton.2 rfl) rfl

/-- Envelopes of `registerHandler`: status against code, and data of the
failures. -/
theorem register_envelopes (config : AppConfig) (idp : IdP) (r : Request) (e : Response)
    (he : e ∈ (registerHandler config idp [] r).written) :
    (e.status = true ↔ e.code = 200 ∨ e.code = 201) ∧
      (e.status = false ↔
        e.code = 400 ∨ e.code = 401 ∨ e.code = 404 ∨ e.code = 405 ∨ e.code = 500) ∧
      (e.status = false →
        (e.data = JVal.null ∧ e.message ≠ "User creation failed") ∨
        (e.code = 400 ∧ e.message = "User creation failed" ∧
          ∃ req adminToken calls resp,
            decodeRegisterReq r.body = some req ∧
            getAdminToken config idp [] = (some adminToken, calls) ∧
            idp calls (createUserReq config adminToken req) = HttpResult.response resp ∧
            e.data = JVal.str resp.body.raw)) := by
  by_cases hm : r.method = "POST"
  swap
  · simp [registerHandler, respondJSON, hm] at he
    subst he
    simp
  cases hd : decodeRegisterReq r.body with
  | none =>
    simp [registerHandler, respondJSON, hm, hd] at he
    subst he
    simp
  | some req =>
    rcases ha : getAdminToken config idp [] with ⟨_ | adminToken, calls⟩
    · simp [registerHandler, respondJSON, hm, hd, ha] at he
      subst he
      simp
    · cases hc : idp calls (createUserReq config adminToken req) with
      | failed =>
        simp [registerHandler, respondJSON, hm, hd, ha, send, hc] at he
        subst he
        simp
      | response resp =>
        by_cases hs : resp.statusCode < 200 ∨ resp.statusCode ≥ 300
        · simp [registerHandler, respondJSON, hm, hd, ha, send, hc, hs] at he
          subst he
          refine ⟨by simp, by simp, ?_⟩
          intro _
          exact Or.inr ⟨rfl, rfl, req, adminToken, calls, resp, rfl, rfl, hc, rfl⟩
        · cases ht : idp (calls ++ [createUserReq config adminToken req])
            (userTokenReq config req.Email req.Password) with
          | failed =>
            simp [registerHandler, respondJSON, hm, hd, ha, send, hc, hs, getUserToken, ht] at he
            subst he
            simp
          | response tresp =>
            rcases hid : getUserIDByEmail config idp (calls ++ [createUserReq config adminToken req,
              userTokenReq config req.Email req.Password]) req.Email with ⟨_ | userID, calls3⟩
            · simp [registerHandler, respondJSON, hm, hd, ha, send, hc, hs, getUserToken, ht, hid]
                at he
            · simp [registerHandler, respondJSON, hm, hd, ha, send, hc, hs, getUserToken, ht, hid]
                at he
              subst he
              simp

/-- Envelopes of `loginHandler`: status against code, and data of the
failures. -/
theorem login_envelopes (config : AppConfig) (idp : IdP) (r : Request) (e : Response)
    (he : e ∈ (loginHandler config idp [] r).written) :
    (e.status = true ↔ e.code = 200 ∨ e.code = 201) ∧
      (e.status = false ↔
        e.code = 400 ∨ e.code = 401 ∨ e.code = 404 ∨ e.code = 405 ∨ e.code = 500) ∧
      (e.status = false → e.data = JVal.null ∧ e.message ≠ "User creation failed") := by
  by_cases hm : r.method = "POST"
  swap
  · simp [loginHandler, respondJSON, hm] at he
    subst he
    simp
  cases hd : decodeLoginReq r.body with
  | none =>
    simp [loginHandler, respondJSON, hm, hd] at he
    subst he
    simp
  | some req =>
    cases ht : idp [] (userTokenReq config req.Email req.Password) with
    | failed =>
      simp [loginHandler, respondJSON, hm, hd, getUserToken, send, ht] at he
      subst he
      simp
    | response tresp =>
      cases hnil : ((unmarshalMap tresp.body).index "access_token").isNil with
      | true =>
        simp [loginHandler, respondJSON, hm, hd, getUserToken, send, ht, hnil] at he
        subst he
        simp
      | false =>
        rcases ha : getAdminToken config idp [userTokenReq config req.Email req.Password]
          with ⟨_ | adminToken, calls⟩
        · simp [loginHandler, respondJSON, hm, hd, getUserToken, send, ht, hnil, ha] at he
          subst he
          simp
        · cases hl : idp calls (usersByEmailReq config adminToken req.Email) with
          | failed =>
            simp [loginHandler, respondJSON, hm, hd, getUserToken, send, ht, hnil, ha, hl] at he
            subst he
            simp
          | response uresp =>
            cases hu : unmarshalUsers uresp.body with
            | nil =>
              simp [loginHandler, respondJSON, hm, hd, getUserToken, send, ht, hnil, ha, hl, hu]
                at he
              subst he
              simp
            | cons user rest =>
              simp [loginHandler, respondJSON, hm, hd, getUserToken, send, ht, hnil, ha, hl, hu]
                at he
              subst he
              simp

/-- Envelopes of `refreshHandler`: status against code, and data of the
failures. -/
theorem refresh_envelopes (config : AppConfig) (idp : IdP) (r : Request) (e : Response)
    (he : e ∈ (refreshHandler config idp [] r).written) :
    (e.status = true ↔ e.code = 200 ∨ e.code = 201) ∧
      (e.status = false ↔
        e.code = 400 ∨ e.code = 401 ∨ e.code = 404 ∨ e.code = 405 ∨ e.code = 500) ∧
      (e.status = false → e.data = JVal.null ∧ e.message ≠ "User creation failed") := by
  by_cases hm : r.method = "POST"
  swap
  · simp [refreshHandler, respondJSON, hm] at he
    subst he
    simp
  cases hd : decodeRefreshReq r.body with
  | none =>
    simp [refreshHandler, respondJSON, hm, hd] at he
    subst he
    simp
  | some req =>
    by_cases hne : req.RefreshToken = ""
    · simp [refreshHandler, respondJSON, hm, hd, hne] at he
      subst he
      simp
    · cases hr : idp [] (refreshReq config req.RefreshToken) with
      | failed =>
        simp [refreshHandler, respondJSON, hm, hd, hne, send, hr] at he
        subst he
        simp
      | response resp =>
        cases hnil : ((unmarshalMap resp.body).index "access_token").isNil with
        | true =>
          simp [refreshHandler, respondJSON, hm, hd, hne, send, hr, hnil] at he
          subst he
          simp
        | false =>
          simp [refreshHandler, respondJSON, hm, hd, hne, send, hr, hnil] at he
          subst he
          simp

/-- C9: for the three handlers, every input and every IdP behaviour, every
envelope written has status true exactly when the HTTP status code is 200 or
201 and status false exactly when the code is one of 400, 401, 404, 405, 500;
in every status-false envelope data is null, except `registerHandler`'s user
creation failure (code 400, message "User creation failed"), where data is the
body of the IdP's reply to the creation request, as a string. -/
theorem envelope_status_matches_code (config : AppConfig) (idp : IdP) (r : Request) :
    (∀ e ∈ (registerHandler config idp [] r).written,
      (e.status = true ↔ e.code = 200 ∨ e.code = 201) ∧
      (e.status = false ↔
        e.code = 400 ∨ e.code = 401 ∨ e.code = 404 ∨ e.code = 405 ∨ e.code = 500) ∧
      (e.status = false →
        (e.data = JVal.null ∧ e.message ≠ "User creation failed") ∨
        (e.code = 400 ∧ e.message = "User creation failed" ∧
          ∃ req adminToken calls resp,
            decodeRegisterReq r.body = some req ∧
            getAdminToken config idp [] = (some adminToken, calls) ∧
            idp calls (createUserReq config adminToken req) = HttpResult.response resp ∧
            e.data = JVal.str resp.body.raw))) ∧
    (∀ e ∈ (loginHandler config idp [] r).written,
      (e.status = true ↔ e.code = 200 ∨ e.code = 201) ∧
      (e.status = false ↔
        e.code = 400 ∨ e.code = 401 ∨ e.code = 404 ∨ e.code = 405 ∨ e.code = 500) ∧
      (e.status = false → e.data = JVal.null ∧ e.message ≠ "User creation failed")) ∧
    (∀ e ∈ (refreshHandler config idp [] r).written,
      (e.status = true ↔ e.code = 200 ∨ e.code = 201) ∧
      (e.status = false ↔
        e.code = 400 ∨ e.code = 401 ∨ e.code = 404 ∨ e.code = 405 ∨ e.code = 500) ∧
      (e.status = false → e.data = JVal.null ∧ e.message ≠ "User creation failed")) :=
  ⟨fun e he => register_envelopes config idp r e he,
    fun e he => login_envelopes config idp r e he,
    fun e he => refresh_envelopes config idp r e he⟩

/-- The type assertion of `getUserIDByEmail` fails exactly when the admin token
was obtained, the lookup got a reply, the reply decoded to at least one user,
and the first user's id is not a string. -/
theorem getUserIDByEmail_panics_iff (config : AppConfig) (idp : IdP) (calls : List OutReq)
    (email : String) :
    (getUserIDByEmail config idp calls email).1 = none ↔
      ∃ adminToken calls2 uresp user rest,
        getAdminToken config idp calls = (some adminToken, calls2) ∧
        idp calls2 (usersByEmailReq config adminToken email) = HttpResult.response uresp ∧
        unmarshalUsers uresp.body = user :: rest ∧
        (user.index "id").asString? = none := by
  rcases ha : getAdminToken config idp calls with ⟨_ | adminToken, calls2⟩
  · simp [getUserIDByEmail, ha]
  · cases hl : idp calls2 (usersByEmailReq config adminToken email) with
    | failed => simp [getUserIDByEmail, ha, send, hl]
    | response uresp =>
      cases hu : unmarshalUsers uresp.body with
      | nil => simp [getUserIDByEmail, ha, send, hl, hu]
      | cons user rest =>
        have hrun : (getUserIDByEmail config idp calls email).1 = (user.index "id").asString? := by
          simp [getUserIDByEmail, ha, send, hl, hu]
        rw [hrun]
        constructor
        · intro h
          exact ⟨adminToken, calls2, uresp, user, rest, rfl, hl, hu, h⟩
        · rintro ⟨adminToken2, calls3, uresp2, user2, rest2, h1, h2, h3, h4⟩
          injection h1 with h1a h1b
          injection h1a with h1a
          subst h1a h1b
          rw [hl] at h2
          injection h2 with h2
          subst h2
          rw [hu] at h3
          injection h3 with h3a h3b
          subst h3a
          exact h4

/-- A run of `loginHandler` never panics and writes one envelope. -/
theorem login_writes_one (config : AppConfig) (idp : IdP) (r : Request) :
    (loginHandler config idp [] r).panicked = false ∧
      (loginHandler config idp [] r).written.length = 1 := by
  unfold loginHandler
  repeat' split
  all_goals simp [respondJSON]

/-- A run of `refreshHandler` never panics and writes one envelope. -/
theorem refresh_writes_one (config : AppConfig) (idp : IdP) (r : Request) :
    (refreshHandler config idp [] r).panicked = false ∧
      (refreshHandler config idp [] r).written.length = 1 := by
  unfold refreshHandler
  repeat' split
  all_goals simp [respondJSON]

/-- A run of `registerHandler` writes one envelope, or panics having written
none. -/
theorem register_writes_one_or_panics (config : AppConfig) (idp : IdP) (r : Request) :
    ((registerHandler config idp [] r).panicked = false ∧
        (registerHandler config idp [] r).written.length = 1) ∨
      ((registerHandler config idp [] r).panicked = true ∧
        (registerHandler config idp [] r).written = []) := by
  unfold registerHandler
  repeat' split
  all_goals simp [respondJSON]

/-- A run of `registerHandler` panics exactly when it reaches the id lookup
and the type assertion there fails. -/
theorem register_panics_iff (config : AppConfig) (idp : IdP) (r : Request) :
    (registerHandler config idp [] r).panicked = true ↔
      ∃ req adminToken cresp tresp adminToken2 calls2 uresp user rest,
        r.method = "POST" ∧ decodeRegisterReq r.body = some req ∧
        getAdminToken config idp [] = (some adminToken, [adminTokenReq config]) ∧
        idp [adminTokenReq config] (createUserReq config adminToken req)
          = HttpResult.response cresp ∧
        (200 ≤ cresp.statusCode ∧ cresp.statusCode ≤ 299) ∧
        idp [adminTokenReq config, createUserReq config adminToken req]
          (userTokenReq config req.Email req.Password) = HttpResult.response tresp ∧
        getAdminToken config idp [adminTokenReq config, createUserReq config adminToken req,
          userTokenReq config req.Email req.Password] = (some adminToken2, calls2) ∧
        idp calls2 (usersByEmailReq config adminToken2 req.Email) = HttpResult.response uresp ∧
        unmarshalUsers uresp.body = user :: rest ∧
        (user.index "id").asString? = none := by
  constructor
  · intro hp
    by_cases hm : r.method = "POST"
    swap
    · simp [registerHandler, hm] at hp
    cases hd : decodeRegisterReq r.body with
    | none => simp [registerHandler, hm, hd] at hp
    | some req =>
      rcases ha : getAdminToken config idp [] with ⟨_ | adminToken, calls⟩
      · simp [registerHandler, hm, hd, ha] at hp
      · have hcalls : calls = [adminTokenReq config] := by
          have := getAdminToken_calls config idp []
          rw [ha] at this
          simpa using this
        subst hcalls
        cases hc : idp [adminTokenReq config] (createUserReq config adminToken req) with
        | failed => simp [registerHandler, hm, hd, ha, send, hc] at hp
        | response cresp =>
          by_cases hs : cresp.statusCode < 200 ∨ cresp.statusCode ≥ 300
          · simp [registerHandler, hm, hd, ha, send, hc, hs] at hp
          · cases ht : idp [adminTokenReq config, createUserReq config adminToken req]
              (userTokenReq config req.Email req.Password) with
            | failed => simp [registerHandler, hm, hd, ha, send, hc, hs, getUserToken, ht] at hp
            | response tresp =>
              rcases hid : getUserIDByEmail config idp [adminTokenReq config,
                createUserReq config adminToken req,
                userTokenReq config req.Email req.Password] req.Email with ⟨_ | userID, calls3⟩
              · have hnone := (getUserIDByEmail_panics_iff config idp _ req.Email).1
                  (by rw [hid])
                obtain ⟨adminToken2, calls2, uresp, user, rest, h1, h2, h3, h4⟩ := hnone
                exact ⟨req, adminToken, cresp, tresp, adminToken2, calls2, uresp, user, rest,
                  hm, rfl, rfl, hc, by omega, ht, h1, h2, h3, h4⟩
              · simp [registerHandler, hm, hd, ha, send, hc, hs, getUserToken, ht, hid] at hp
  · rintro ⟨req, adminToken, cresp, tresp, adminToken2, calls2, uresp, user, rest,
      hm, hd, ha, hc, h2xx, ht, h1, h2, h3, h4⟩
    have hs : ¬ (cresp.statusCode < 200 ∨ cresp.statusCode ≥ 300) := by omega
    have hnone := (getUserIDByEmail_panics_iff config idp [adminTokenReq config,
      createUserReq config adminToken req, userTokenReq config req.Email req.Password]
      req.Email).2 ⟨adminToken2, calls2, uresp, user, rest, h1, h2, h3, h4⟩
    rcases hid : getUserIDByEmail config idp [adminTokenReq config,
      createUserReq config adminToken req,
      userTokenReq config req.Email req.Password] req.Email with ⟨o, calls3⟩
    rw [hid] at hnone
    simp only at hnone
    subst hnone
    simp [registerHandler, hm, hd, ha, send, hc, hs, getUserToken, ht, hid]

/-- C10: `loginHandler` and `refreshHandler` write exactly one envelope and
never panic, for every request and IdP behaviour, with no precondition.
`registerHandler` either writes exactly one envelope or panics having written
none; it panics exactly when, after a successful creation and token fetch, the
lookup in `getUserIDByEmail` returns a non-empty user array whose first
element's id is not a string (absent, null or of another type), the unchecked
type assertion being the only panicking branch. Under the precondition that
every such lookup reply has a string id in its first element, `registerHandler`
writes exactly one envelope. -/
theorem handlers_write_one_envelope (config : AppConfig) (idp : IdP) (r : Request) :
    ((loginHandler config idp [] r).panicked = false ∧
        (loginHandler config idp [] r).written.length = 1) ∧
      ((refreshHandler config idp [] r).panicked = false ∧
        (refreshHandler config idp [] r).written.length = 1) ∧
      (((registerHandler config idp [] r).panicked = false ∧
          (registerHandler config idp [] r).written.length = 1) ∨
        ((registerHandler config idp [] r).panicked = true ∧
          (registerHandler config idp [] r).written = [])) ∧
      ((registerHandler config idp [] r).panicked = true ↔
        ∃ req adminToken cresp tresp adminToken2 calls2 uresp user rest,
          r.method = "POST" ∧ decodeRegisterReq r.body = some req ∧
          getAdminToken config idp [] = (some adminToken, [adminTokenReq config]) ∧
          idp [adminTokenReq config] (createUserReq config adminToken req)
            = HttpResult.response cresp ∧
          (200 ≤ cresp.statusCode ∧ cresp.statusCode ≤ 299) ∧
          idp [adminTokenReq config, createUserReq config adminToken req]
            (userTokenReq config req.Email req.Password) = HttpResult.response tresp ∧
          getAdminToken config idp [adminTokenReq config, createUserReq config adminToken req,
            userTokenReq config req.Email req.Password] = (some adminToken2, calls2) ∧
          idp calls2 (usersByEmailReq config adminToken2 req.Email)
            = HttpResult.response uresp ∧
          unmarshalUsers uresp.body = user :: rest ∧
          (user.index "id").asString? = none) ∧
      ((∀ calls adminToken email uresp user rest,
          idp calls (usersByEmailReq config adminToken email) = HttpResult.response uresp →
          unmarshalUsers uresp.body = user :: rest →
          ∃ id, user.index "id" = JVal.str id) →
        (registerHandler config idp [] r).panicked = false ∧
          (registerHandler config idp [] r).written.length = 1) := by
  refine ⟨login_writes_one config idp r, refresh_writes_one config idp r,
    register_writes_one_or_panics config idp r, register_panics_iff config idp r, ?_⟩
  intro hpre
  rcases register_writes_one_or_panics config idp r with h | ⟨hp, _⟩
  · exact h
  · obtain ⟨req, adminToken, cresp, tresp, adminToken2, calls2, uresp, user, rest,
      _, _, _, _, _, _, _, h2, h3, h4⟩ := (register_panics_iff config idp r).1 hp
    obtain ⟨id, hid⟩ := hpre calls2 adminToken2 req.Email uresp user rest h2 h3
    rw [hid] at h4
    simp [JVal.asString?] at h4

/-- The failing branch of C10 at a concrete input: the user is created, the
token pair fetched, and the lookup returns a user record without id;
`registerHandler` panics and writes no envelope. -/
theorem register_panics_without_id :
    registerHandler sampleConfig
        (scriptedIdP [adminGrant, createdReply, pairGrant, adminGrant, noIdUserReply]) []
        sampleRegister
      = ⟨[adminTokenReq sampleConfig, createUserReq sampleConfig "ADM" sampleRegisterReq,
          userTokenReq sampleConfig "ada@example.org" "pw", adminTokenReq sampleConfig,
          usersByEmailReq sampleConfig "ADM" "ada@example.org"], [], true⟩ :=
  rfl

end Roaport
